import Mathlib

/-!
Verification of the fdk-rust FDK core: a shallow embedding of the
request/response pipeline of the `fdk` crate (error taxonomy, response
envelope builder, codec wrappers, runtime context construction and the
listener bootstrap's environment validation), with theorems settling the
specification's claims about it.

Conventions of the embedding:
* hyper's `HeaderMap` is modelled as an association list of
  (name, value) pairs of strings.  hyper's `HeaderName` stores names in
  lowercase and compares case-insensitively, so stored names are taken
  lowercase and every lookup/insert lowercases its key.  Header values are
  modelled as strings whose characters stand for the value's bytes
  (codepoints below 256); `HeaderValue::to_str` succeeds exactly on
  visible-ASCII bytes.
* `StatusCode` is a `Nat`; `StatusCode::from_u16` accepts 100..=999.
* Rust panics are modelled by the `Panics` sum; fallible functions return
  `Except`.
* External crates (the url parser, the HTTP method parser, the serde
  codecs) are not part of this repository; they enter either as explicit
  function parameters of the embedded operations or as clearly marked
  models of their documented behaviour.
-/

namespace Fdk

/-- ASCII lowercase of one character (A-Z mapped to a-z, the rest kept). -/
def lowerAsciiChar (c : Char) : Char :=
  if c.isUpper then Char.ofNat (c.toNat + 32) else c

/-- ASCII lowercase of a string, modelling hyper's header-name normalization. -/
def lowerAscii (s : String) : String :=
  String.mk (s.data.map lowerAsciiChar)

/-- hyper's HeaderMap: an association list, names stored lowercase. -/
abbrev HeaderMap := List (String × String)

/-- All values stored under a name (`HeaderMap::get_all`); lookup is
case-insensitive because the key is lowercased like a `HeaderName`. -/
def getAllHeaders (m : HeaderMap) (k : String) : List String :=
  (m.filter (fun p => p.1 == lowerAscii k)).map Prod.snd

/-- First value stored under a name (`HeaderMap::get`). -/
def getHeader (m : HeaderMap) (k : String) : Option String :=
  (m.find? (fun p => p.1 == lowerAscii k)).map Prod.snd

/-- `HeaderMap::insert`: drops every value previously stored under the name
and stores the single new value. -/
def insertHeader (m : HeaderMap) (k v : String) : HeaderMap :=
  (m.filter (fun p => !(p.1 == lowerAscii k))) ++ [(lowerAscii k, v)]

/-- `HeaderValue::to_str`: succeeds iff every byte of the value is visible
ASCII (32..=126) or horizontal tab. -/
def headerValueToStr (v : String) : Option String :=
  if v.data.all (fun c => (32 ≤ c.toNat && c.toNat ≤ 126) || c.toNat = 9) then
    some v
  else
    none

/-- The error kinds of errors.rs (`enum FunctionErrorKind`). -/
inductive FunctionErrorKind where
  | InvalidInput
  | BadRequest
  | InitializationError
  | CoercionError
  | IOError
  | OtherError
  deriving DecidableEq, Repr

/-- errors.rs `FunctionErrorKind::is_user_error`. -/
def FunctionErrorKind.is_user_error : FunctionErrorKind → Bool
  | .InvalidInput => true
  | .BadRequest => true
  | .CoercionError => true
  | _ => false

/-- errors.rs `struct FunctionError`: a kind and the cause's message. -/
structure FunctionError where
  kind : FunctionErrorKind
  error : String
  deriving DecidableEq, Repr

def FunctionError.invalid_input (e : String) : FunctionError :=
  ⟨.InvalidInput, e⟩

def FunctionError.bad_request (e : String) : FunctionError :=
  ⟨.BadRequest, e⟩

def FunctionError.initialization (e : String) : FunctionError :=
  ⟨.InitializationError, e⟩

def FunctionError.coercion (e : String) : FunctionError :=
  ⟨.CoercionError, e⟩

def FunctionError.io (e : String) : FunctionError :=
  ⟨.IOError, e⟩

def FunctionError.other (e : String) : FunctionError :=
  ⟨.OtherError, e⟩

/-- errors.rs `FunctionError::is_user_error`. -/
def FunctionError.is_user_error (e : FunctionError) : Bool :=
  e.kind.is_user_error

/-- errors.rs `impl From<VarError> for FunctionError`. -/
def function_error_from_var_error (e : String) : FunctionError :=
  FunctionError.initialization e

/-- errors.rs `impl From<hyper::Error> for FunctionError`. -/
def function_error_from_hyper_error (e : String) : FunctionError :=
  FunctionError.other ("hyper error: " ++ e)

/-- errors.rs `impl From<std::io::Error> for FunctionError`. -/
def function_error_from_io_error (e : String) : FunctionError :=
  FunctionError.io e

/-- The value of the Fn-Fdk-Version sentinel header.  In utils.rs it is
produced from crate_version!() at build time; the claims only use that the
header is present, carrying this fixed value. -/
def fdkVersionValue : String := "fdk-rust/0.1.0"

/-- The value of the Fn-Fdk-Runtime sentinel header (rustc version baked in
at build time). -/
def fdkRuntimeValue : String := "rustc/1.60.0"

/-- A hyper `Response<Body>`: outer status, headers and body bytes. -/
structure Response where
  status : Nat
  headers : HeaderMap
  body : String
  deriving DecidableEq, Repr

/-- utils.rs `make_header_map_with_single_value`. -/
def make_header_map_with_single_value (k v : String) : HeaderMap :=
  insertHeader [] k v

/-- utils.rs `generic_response`: inserts the two FDK sentinel headers into
the given header map and builds the response with the given outer status. -/
def generic_response (status : Nat) (body : Option String) (headers : HeaderMap) : Response :=
  let headers1 := insertHeader headers "Fn-Fdk-Version" fdkVersionValue
  let headers2 := insertHeader headers1 "Fn-Fdk-Runtime" fdkRuntimeValue
  { status := status, headers := headers2, body := body.getD "" }

/-- utils.rs `add_status_header`: stores the logical status, in decimal,
under Fn-Http-Status (replacing any value already there). -/
def add_status_header (header : Option HeaderMap) (status : Nat) : HeaderMap :=
  match header with
  | some hdrs => insertHeader hdrs "Fn-Http-Status" (toString status)
  | none => make_header_map_with_single_value "Fn-Http-Status" (toString status)

/-- utils.rs `success_or_recoverable_error`: logical status into
Fn-Http-Status, outer status 200. -/
def success_or_recoverable_error (status : Nat) (body : Option String)
    (headers : Option HeaderMap) : Response :=
  generic_response 200 body (add_status_header headers status)

/-- utils.rs `unrecoverable_error`: logical status into Fn-Http-Status,
outer status 502. -/
def unrecoverable_error (status : Nat) (body : Option String)
    (headers : Option HeaderMap) : Response :=
  generic_response 502 body (add_status_header headers status)

/-- errors.rs `client_error`: builds the recoverable envelope, passing
`StatusCode::BAD_GATEWAY` (502) as the logical status and a Content-Length
header for the body bytes. -/
def client_error (data : String) : Response :=
  success_or_recoverable_error 502 (some data)
    (some (make_header_map_with_single_value "content-length" (toString data.utf8ByteSize)))

/-- errors.rs `server_error`: builds the unrecoverable envelope with logical
status `StatusCode::INTERNAL_SERVER_ERROR` (500). -/
def server_error (data : String) : Response :=
  unrecoverable_error 500 (some data)
    (some (make_header_map_with_single_value "content-length" (toString data.utf8ByteSize)))

/-- errors.rs `impl From<FunctionError> for hyper::Response<Body>`. -/
def response_from_function_error (e : FunctionError) : Response :=
  if e.is_user_error then client_error e.error else server_error e.error

/-- Rust's `b as char` applied byte-wise: the string whose characters are the
input bytes read as Latin-1 codepoints (coercions.rs builds decoder input
strings this way). -/
def latin1Decode (input : List Nat) : String :=
  String.mk (input.map Char.ofNat)

/-- Rust's `ch as u8` applied to every character: truncation of each
codepoint to its low byte (coercions.rs builds encoder output bytes this
way). -/
def latin1Encode (s : String) : List Nat :=
  s.data.map (fun c => c.toNat % 256)

/-- coercions.rs `try_decode_plain`; the external serde_plain string codec is
an explicit parameter. -/
def try_decode_plain {α : Type} (serde_plain_from_str : String → Except String α)
    (input : List Nat) : Except FunctionError α :=
  match serde_plain_from_str (latin1Decode input) with
  | .ok t => .ok t
  | .error e => .error (FunctionError.coercion e)

/-- coercions.rs `try_decode_json`; the external serde_json byte codec is an
explicit parameter. -/
def try_decode_json {α : Type} (serde_json_from_slice : List Nat → Except String α)
    (input : List Nat) : Except FunctionError α :=
  match serde_json_from_slice input with
  | .ok t => .ok t
  | .error e => .error (FunctionError.coercion e)

/-- coercions.rs `try_decode_xml`. -/
def try_decode_xml {α : Type} (serde_xml_from_str : String → Except String α)
    (input : List Nat) : Except FunctionError α :=
  match serde_xml_from_str (latin1Decode input) with
  | .ok t => .ok t
  | .error e => .error (FunctionError.coercion e)

/-- coercions.rs `try_decode_yaml`. -/
def try_decode_yaml {α : Type} (serde_yaml_from_slice : List Nat → Except String α)
    (input : List Nat) : Except FunctionError α :=
  match serde_yaml_from_slice input with
  | .ok t => .ok t
  | .error e => .error (FunctionError.coercion e)

/-- coercions.rs `try_decode_urlencoded`. -/
def try_decode_urlencoded {α : Type} (serde_urlencoded_from_str : String → Except String α)
    (input : List Nat) : Except FunctionError α :=
  match serde_urlencoded_from_str (latin1Decode input) with
  | .ok t => .ok t
  | .error e => .error (FunctionError.coercion e)

/-- coercions.rs `try_encode_json`. -/
def try_encode_json {α : Type} (serde_json_to_vec : α → Except String (List Nat))
    (v : α) : Except FunctionError (List Nat) :=
  match serde_json_to_vec v with
  | .ok vector => .ok vector
  | .error e => .error (FunctionError.coercion e)

/-- coercions.rs `try_encode_xml`: the string the external codec produces is
truncated character-by-character to bytes. -/
def try_encode_xml {α : Type} (serde_xml_to_string : α → Except String String)
    (v : α) : Except FunctionError (List Nat) :=
  match serde_xml_to_string v with
  | .ok vector => .ok (latin1Encode vector)
  | .error e => .error (FunctionError.coercion e)

/-- coercions.rs `try_encode_yaml`. -/
def try_encode_yaml {α : Type} (serde_yaml_to_vec : α → Except String (List Nat))
    (v : α) : Except FunctionError (List Nat) :=
  match serde_yaml_to_vec v with
  | .ok vector => .ok vector
  | .error e => .error (FunctionError.coercion e)

/-- coercions.rs `try_encode_plain`. -/
def try_encode_plain {α : Type} (serde_plain_to_string : α → Except String String)
    (v : α) : Except FunctionError (List Nat) :=
  match serde_plain_to_string v with
  | .ok vector => .ok (latin1Encode vector)
  | .error e => .error (FunctionError.coercion e)

/-- coercions.rs `try_encode_urlencoded`. -/
def try_encode_urlencoded {α : Type} (serde_urlencoded_to_string : α → Except String String)
    (v : α) : Except FunctionError (List Nat) :=
  match serde_urlencoded_to_string v with
  | .ok vector => .ok (latin1Encode vector)
  | .error e => .error (FunctionError.coercion e)

/-- coercions.rs `ContentType`. -/
inductive ContentType where
  | JSON
  | YAML
  | XML
  | Plain
  | URLEncoded
  deriving DecidableEq, Repr

/-- coercions.rs `ContentType::from_str`: the match over the MIME string,
with JSON as the default for any other string. -/
def ContentType.from_str (s : String) : ContentType :=
  if s = "application/json" then .JSON
  else if s = "text/yaml" then .YAML
  else if s = "application/yaml" then .YAML
  else if s = "text/xml" then .XML
  else if s = "application/xml" then .XML
  else if s = "text/plain" then .Plain
  else if s = "application/x-www-form-urlencoded" then .URLEncoded
  else .JSON

/-- coercions.rs `ContentType::as_header_value`. -/
def ContentType.as_header_value : ContentType → String
  | .JSON => "application/json"
  | .YAML => "text/yaml"
  | .XML => "application/xml"
  | .Plain => "text/plain"
  | .URLEncoded => "application/x-www-form-urlencoded"

/-- Outcome of a Rust computation that may panic (an `unwrap` on a bad
value) instead of returning. -/
inductive Panics (α : Type) where
  | ok : α → Panics α
  | panic : String → Panics α
  deriving DecidableEq, Repr

def Panics.isOk {α : Type} : Panics α → Bool
  | .ok _ => true
  | .panic _ => false

def Panics.isPanic {α : Type} : Panics α → Bool
  | .ok _ => false
  | .panic _ => true

/-- An inbound hyper request, reduced to what context.rs consumes: its
header map (names lowercase, as hyper stores them). -/
structure Request where
  headers : HeaderMap
  deriving DecidableEq, Repr

/-- context.rs `RuntimeContext`. -/
structure RuntimeContext where
  config : List (String × String)
  headers : HeaderMap
  method : Option String
  content_type : ContentType
  accept_type : ContentType
  uri : Option String
  call_id : String
  response_headers : HeaderMap
  response_status_code : Option Nat
  deriving DecidableEq, Repr

/-- context.rs `resolve_content_type`: absent header resolves to JSON; a
present value is read with `to_str().unwrap_or("")` and dispatched through
`ContentType::from_str`. -/
def resolve_content_type (v : Option String) : ContentType :=
  match v with
  | some value => ContentType.from_str ((headerValueToStr value).getD "")
  | none => ContentType.JSON

/-- context.rs `get_accept_header_value`: Fn-Http-H-Accept first, then
Accept, else none. -/
def get_accept_header_value (headers : HeaderMap) : Option String :=
  if (getHeader headers "Fn-Http-H-Accept").isSome then
    getHeader headers "Fn-Http-H-Accept"
  else if (getHeader headers "Accept").isSome then
    getHeader headers "Accept"
  else
    none

/-- Model of the external http crate's `Method::try_from(&str)`: a standard
or extension method, i.e. a non-empty string of HTTP token characters
(RFC 7230 tchar: alphanumerics and a fixed set of punctuation, given here
by codepoint). -/
def methodExtraChars : List Nat :=
  [33, 35, 36, 37, 38, 39, 42, 43, 45, 46, 94, 95, 96, 124, 126]

def isMethodTokenChar (c : Char) : Bool :=
  c.isAlphanum || methodExtraChars.contains c.toNat

def methodTryFrom (s : String) : Option String :=
  if s.length > 0 && s.data.all isMethodTokenChar then some s else none

/-- context.rs `from_req`, the Fn-Intent read:
`req.headers().get("Fn-Intent").map(|v| v.to_str().unwrap()).unwrap_or("")`.
A non-visible-ASCII value makes the `unwrap` panic. -/
def intent_of (req : Request) : Panics String :=
  match getHeader req.headers "Fn-Intent" with
  | some v =>
    match headerValueToStr v with
    | some s => Panics.ok s
    | none => Panics.panic "Fn-Intent value is not visible ASCII"
  | none => Panics.ok ""

/-- Rust's `str::starts_with`, written over the character lists so that the
kernel can evaluate it. -/
def strStartsWith (s pre : String) : Bool :=
  pre.data.isPrefixOf s.data

/-- context.rs `from_req`, the `httprequest` filter branch: keep pairs whose
name equals CONTENT_TYPE or whose (lowercase-stored) name starts with the
literal "Fn-Http-H-", folding them into a fresh map with insert. -/
def intentFiltered (headers : HeaderMap) : HeaderMap :=
  (headers.filter
      (fun p => (p.1 == "content-type") || strStartsWith p.1 "Fn-Http-H-")).foldl
    (fun m p => insertHeader m p.1 p.2) []

/-- context.rs `from_req`, the Fn-Http-Method field:
`headers.get("Fn-Http-Method").map(|v| Method::try_from(v.to_str().unwrap()).unwrap())`.
Either unwrap panics on a bad value. -/
def method_field (headers : HeaderMap) : Panics (Option String) :=
  match getHeader headers "Fn-Http-Method" with
  | none => Panics.ok none
  | some v =>
    match headerValueToStr v with
    | none => Panics.panic "Fn-Http-Method value is not visible ASCII"
    | some s =>
      match methodTryFrom s with
      | some m => Panics.ok (some m)
      | none => Panics.panic "Fn-Http-Method is not a valid HTTP method"

/-- context.rs `from_req`, the Fn-Http-Request-Url field:
`headers.get("Fn-Http-Request-Url").map(|v| Uri::try_from(v.to_str().unwrap()).unwrap())`.
The external http Uri parser is an explicit parameter. -/
def uri_field (uriParse : String → Option String) (headers : HeaderMap) :
    Panics (Option String) :=
  match getHeader headers "Fn-Http-Request-Url" with
  | none => Panics.ok none
  | some v =>
    match headerValueToStr v with
    | none => Panics.panic "Fn-Http-Request-Url value is not visible ASCII"
    | some s =>
      match uriParse s with
      | some u => Panics.ok (some u)
      | none => Panics.panic "Fn-Http-Request-Url is not a valid URI"

/-- context.rs `RuntimeContext::from_req`.  `config` stands for the
process-wide CONFIG_FROM_ENV map; `uriParse` for the external http Uri
parser.  Intent filtering, then the field-by-field construction, in source
order; note method, uri and call_id read the filtered map while the
content/accept negotiation reads the original request headers. -/
def context_headers (fn_intent : String) (req : Request) : HeaderMap :=
  if fn_intent = "httprequest" then intentFiltered req.headers else req.headers

def from_req (uriParse : String → Option String) (config : List (String × String))
    (req : Request) : Panics RuntimeContext :=
  match intent_of req with
  | .panic m => .panic m
  | .ok fn_intent =>
    match method_field (context_headers fn_intent req) with
    | .panic m => .panic m
    | .ok method =>
      match uri_field uriParse (context_headers fn_intent req) with
      | .panic m => .panic m
      | .ok uri =>
        .ok
          { config := config
            headers := context_headers fn_intent req
            method := method
            content_type := resolve_content_type (getHeader req.headers "Content-Type")
            accept_type := resolve_content_type (get_accept_header_value req.headers)
            uri := uri
            call_id :=
              ((getHeader (context_headers fn_intent req) "Fn-Call-Id").map
                (fun v => (headerValueToStr v).getD "")).getD ""
            response_headers := []
            response_status_code := none }

/-- Model of http's `StatusCode::from_u16`: accepts exactly 100..=999. -/
def statusCodeFromU16 (status : Nat) : Option Nat :=
  if 100 ≤ status ∧ status ≤ 999 then some status else none

/-- context.rs `RuntimeContext::set_status_code`: validates through
`StatusCode::from_u16` and either records the override or fails with an
InvalidInput error. -/
def set_status_code (ctx : RuntimeContext) (status : Nat) :
    Except FunctionError RuntimeContext :=
  match statusCodeFromU16 status with
  | some v => .ok { ctx with response_status_code := some v }
  | none => .error (FunctionError.invalid_input "Invalid http code added")

/-- The parsed-URL view the bootstrap consumes from the external url crate:
scheme, path, and the serialized form used in error messages. -/
structure UrlT where
  scheme : String
  path : String
  full : String
  deriving DecidableEq, Repr

/-- Outcome of the listener bootstrap's environment-validation phase
(socket.rs `UDS::new` before any filesystem action): an Initialization
error, a Rust panic, or success carrying the socket path. -/
inductive UdsValidation where
  | initError : String → UdsValidation
  | panicked : String → UdsValidation
  | ok : String → UdsValidation
  deriving DecidableEq, Repr

/-- socket.rs `UDS::new`, FN_LISTENER handling: absent is an Initialization
error; a present value that the url crate cannot parse panics
(`unwrap_or_else(|_| panic!(..))`); a parsed URL must have scheme "unix"
and a non-empty path. -/
def uds_listener_check (urlParse : String → Option UrlT) (fnListener : Option String) :
    UdsValidation :=
  match fnListener with
  | none => UdsValidation.initError "FN_LISTENER not found in env"
  | some value =>
    match urlParse value with
    | none => UdsValidation.panicked ("Malformed FN_LISTENER specified: " ++ value)
    | some socket_url =>
      if socket_url.scheme ≠ "unix" ∨ socket_url.path = "" then
        UdsValidation.initError ("Malformed FN_LISTENER specified: " ++ socket_url.full)
      else
        UdsValidation.ok socket_url.path

/-- socket.rs `UDS::new`, environment validation: the FN_FORMAT gate, then
FN_LISTENER handling.  `urlParse` stands for the external url crate;
success means bootstrap proceeds to the filesystem/socket phase. -/
def uds_new_validate (urlParse : String → Option UrlT) (fnFormat : Option String)
    (fnListener : Option String) : UdsValidation :=
  match fnFormat with
  | some fn_format =>
    if fn_format ≠ "http-stream" ∧ fn_format ≠ "" then
      UdsValidation.initError ("Unsupported FN_FORMAT specified: " ++ fn_format)
    else
      uds_listener_check urlParse fnListener
  | none => uds_listener_check urlParse fnListener

/-- Characters before the first "://" and the characters after it, when the
separator occurs. -/
def splitSchemeSep : List Char → Option (List Char × List Char)
  | [] => none
  | ':' :: '/' :: '/' :: rest => some ([], rest)
  | c :: rest => (splitSchemeSep rest).map (fun p => (c :: p.1, p.2))

/-- The suffix starting at the first '/' (the URL path after the
authority); an authority with no '/' has the empty path. -/
def pathFrom : List Char → List Char
  | [] => []
  | '/' :: rest => '/' :: rest
  | _ :: rest => pathFrom rest

/-- Model of the external url crate's `Url::parse`, restricted to the shape
the bootstrap exercises: a non-empty scheme, the literal "://", then an
optional authority and a path.  Scheme-relative and scheme-less strings
(among them the empty string) fail to parse. -/
def urlParseModel (s : String) : Option UrlT :=
  match splitSchemeSep s.data with
  | none => none
  | some (schemeChars, rest) =>
    if schemeChars = [] then none
    else some { scheme := String.mk schemeChars, path := String.mk (pathFrom rest), full := s }

/-! Lemmas about the header-map operations. -/

lemma filter_key_of_removed (m : HeaderMap) (lk : String) :
    (m.filter (fun p => !(p.1 == lk))).filter (fun p => p.1 == lk) = [] := by
  induction m with
  | nil => rfl
  | cons hd tl ih =>
    by_cases h : hd.1 = lk
    · simp [List.filter_cons, h, ih]
    · simp [List.filter_cons, h, ih]

lemma filter_key_of_removed_ne (m : HeaderMap) (lk lk' : String) (h : lk' ≠ lk) :
    (m.filter (fun p => !(p.1 == lk))).filter (fun p => p.1 == lk') =
      m.filter (fun p => p.1 == lk') := by
  induction m with
  | nil => rfl
  | cons hd tl ih =>
    by_cases h1 : hd.1 = lk
    · have h2 : hd.1 ≠ lk' := by
        rw [h1]
        exact fun hc => h hc.symm
      simp [List.filter_cons, h1, h2, ih, h, Ne.symm h]
    · by_cases h2 : hd.1 = lk'
      · simp [List.filter_cons, h1, h2, ih, h, Ne.symm h]
      · simp [List.filter_cons, h1, h2, ih, h, Ne.symm h]

/-- Inserting a header makes it the single value under its (lowercased) name. -/
lemma getAllHeaders_insertHeader_self (m : HeaderMap) (k v k' : String)
    (h : lowerAscii k' = lowerAscii k) :
    getAllHeaders (insertHeader m k v) k' = [v] := by
  unfold getAllHeaders insertHeader
  rw [h, List.filter_append, filter_key_of_removed]
  simp

/-- Inserting a header leaves every other name's values unchanged. -/
lemma getAllHeaders_insertHeader_ne (m : HeaderMap) (k v k' : String)
    (h : lowerAscii k' ≠ lowerAscii k) :
    getAllHeaders (insertHeader m k v) k' = getAllHeaders m k' := by
  unfold getAllHeaders insertHeader
  rw [List.filter_append, filter_key_of_removed_ne _ _ _ h]
  have h2 : lowerAscii k ≠ lowerAscii k' := fun hc => h hc.symm
  simp [List.filter_cons, h2]

/-- The sentinel headers and the frame condition of `generic_response`. -/
lemma generic_response_headers (hdrs : HeaderMap) (st : Nat) (body : Option String) :
    getAllHeaders (generic_response st body hdrs).headers "Fn-Fdk-Version" = [fdkVersionValue]
    ∧ getAllHeaders (generic_response st body hdrs).headers "Fn-Fdk-Runtime" = [fdkRuntimeValue]
    ∧ ∀ k, lowerAscii k ≠ "fn-fdk-version" → lowerAscii k ≠ "fn-fdk-runtime" →
        getAllHeaders (generic_response st body hdrs).headers k = getAllHeaders hdrs k := by
  unfold generic_response
  refine ⟨?_, ?_, ?_⟩
  · rw [getAllHeaders_insertHeader_ne _ _ _ _ (by decide),
      getAllHeaders_insertHeader_self _ _ _ _ rfl]
  · rw [getAllHeaders_insertHeader_self _ _ _ _ rfl]
  · intro k hk1 hk2
    rw [getAllHeaders_insertHeader_ne _ _ _ _ (by rw [(by decide :
        lowerAscii "Fn-Fdk-Runtime" = "fn-fdk-runtime")]; exact hk2),
      getAllHeaders_insertHeader_ne _ _ _ _ (by rw [(by decide :
        lowerAscii "Fn-Fdk-Version" = "fn-fdk-version")]; exact hk1)]

/-- The Fn-Http-Status value stored by `add_status_header`. -/
lemma add_status_header_getAll (headers : Option HeaderMap) (s : Nat) :
    getAllHeaders (add_status_header headers s) "Fn-Http-Status" = [toString s] := by
  cases headers with
  | none =>
    simp only [add_status_header, make_header_map_with_single_value]
    exact getAllHeaders_insertHeader_self _ _ _ _ rfl
  | some h =>
    simp only [add_status_header]
    exact getAllHeaders_insertHeader_self _ _ _ _ rfl

/-- `add_status_header` leaves names other than Fn-Http-Status unchanged. -/
lemma add_status_header_getAll_ne (headers : HeaderMap) (s : Nat) (k : String)
    (h : lowerAscii k ≠ "fn-http-status") :
    getAllHeaders (add_status_header (some headers) s) k = getAllHeaders headers k := by
  simp only [add_status_header]
  exact getAllHeaders_insertHeader_ne _ _ _ _ (by
    rw [(by decide : lowerAscii "Fn-Http-Status" = "fn-http-status")]
    exact h)

/-- An empty runtime context, as built from a request with no headers and an
empty environment. -/
def sampleContext : RuntimeContext :=
  { config := []
    headers := []
    method := none
    content_type := .JSON
    accept_type := .JSON
    uri := none
    call_id := ""
    response_headers := []
    response_status_code := none }

/-- C1 (code bug): converting a user-error-kind `FunctionError` into a
response yields outer status 200 but logical status 502 (errors.rs
`client_error` passes `StatusCode::BAD_GATEWAY` into the recoverable
envelope), although `is_user_error`'s own documentation promises a
400-series error; the non-user kinds yield outer 502 / logical 500 as
documented. -/
theorem user_error_envelope_evaluation :
    (FunctionError.invalid_input "bad").is_user_error = true
    ∧ (response_from_function_error (FunctionError.invalid_input "bad")).status = 200
    ∧ getAllHeaders (response_from_function_error
        (FunctionError.invalid_input "bad")).headers "Fn-Http-Status" = ["502"]
    ∧ (FunctionError.io "fail").is_user_error = false
    ∧ (response_from_function_error (FunctionError.io "fail")).status = 502
    ∧ getAllHeaders (response_from_function_error
        (FunctionError.io "fail")).headers "Fn-Http-Status" = ["500"] := by
  decide

/-- C2 (amended): every response built by the envelope builder carries the
Fn-Fdk-Version and Fn-Fdk-Runtime sentinels, exactly one Fn-Http-Status
header holding the logical status in decimal, and outer status 200
(recoverable) or 502 (unrecoverable).  Amended: the logical status ranges
over hyper's StatusCode domain [100, 999], not [100, 599]. -/
theorem envelope_builder_invariants (s : Nat) (body : Option String)
    (headers : Option HeaderMap) (hlo : 100 ≤ s) (hhi : s ≤ 999) :
    (success_or_recoverable_error s body headers).status = 200
    ∧ (unrecoverable_error s body headers).status = 502
    ∧ getAllHeaders (success_or_recoverable_error s body headers).headers
        "Fn-Fdk-Version" = [fdkVersionValue]
    ∧ getAllHeaders (success_or_recoverable_error s body headers).headers
        "Fn-Fdk-Runtime" = [fdkRuntimeValue]
    ∧ getAllHeaders (success_or_recoverable_error s body headers).headers
        "Fn-Http-Status" = [toString s]
    ∧ getAllHeaders (unrecoverable_error s body headers).headers
        "Fn-Fdk-Version" = [fdkVersionValue]
    ∧ getAllHeaders (unrecoverable_error s body headers).headers
        "Fn-Fdk-Runtime" = [fdkRuntimeValue]
    ∧ getAllHeaders (unrecoverable_error s body headers).headers
        "Fn-Http-Status" = [toString s]
    ∧ 100 ≤ s ∧ s ≤ 999 := by
  obtain ⟨gv, gr, gf⟩ := generic_response_headers (add_status_header headers s) 200 body
  obtain ⟨gv2, gr2, gf2⟩ := generic_response_headers (add_status_header headers s) 502 body
  exact ⟨rfl, rfl, gv, gr,
    (gf _ (by decide) (by decide)).trans (add_status_header_getAll headers s),
    gv2, gr2,
    (gf2 _ (by decide) (by decide)).trans (add_status_header_getAll headers s),
    hlo, hhi⟩

/-- Witness for the envelope-builder invariants at a concrete status, body
and header map. -/
theorem envelope_builder_invariants_witness :
    (success_or_recoverable_error 204 (some "ok") none).status = 200
    ∧ (unrecoverable_error 204 (some "ok") none).status = 502
    ∧ getAllHeaders (success_or_recoverable_error 204 (some "ok") none).headers
        "Fn-Fdk-Version" = [fdkVersionValue]
    ∧ getAllHeaders (success_or_recoverable_error 204 (some "ok") none).headers
        "Fn-Fdk-Runtime" = [fdkRuntimeValue]
    ∧ getAllHeaders (success_or_recoverable_error 204 (some "ok") none).headers
        "Fn-Http-Status" = [toString 204]
    ∧ getAllHeaders (unrecoverable_error 204 (some "ok") none).headers
        "Fn-Fdk-Version" = [fdkVersionValue]
    ∧ getAllHeaders (unrecoverable_error 204 (some "ok") none).headers
        "Fn-Fdk-Runtime" = [fdkRuntimeValue]
    ∧ getAllHeaders (unrecoverable_error 204 (some "ok") none).headers
        "Fn-Http-Status" = [toString 204]
    ∧ 100 ≤ 204 ∧ 204 ≤ 999 :=
  envelope_builder_invariants 204 (some "ok") none (by decide) (by decide)

/-- Counterexample to C2 as stated: the envelope builder, applied at the
valid hyper status 600, emits an Fn-Http-Status value outside [100, 599]. -/
theorem envelope_status_600_counterexample :
    getAllHeaders (success_or_recoverable_error 600 none none).headers
      "Fn-Http-Status" = ["600"]
    ∧ ¬(600 ≤ 599) := by
  decide

/-- C9: handler-accumulated response headers pass into the final envelope
unchanged at every non-sentinel name, while the three FDK sentinel names
are overwritten with the FDK's values. -/
theorem envelope_preserves_handler_headers (s : Nat) (body : Option String)
    (hdrs : HeaderMap) (k : String)
    (h1 : lowerAscii k ≠ "fn-fdk-version") (h2 : lowerAscii k ≠ "fn-fdk-runtime")
    (h3 : lowerAscii k ≠ "fn-http-status") :
    getAllHeaders (success_or_recoverable_error s body (some hdrs)).headers k
      = getAllHeaders hdrs k
    ∧ getAllHeaders (unrecoverable_error s body (some hdrs)).headers k
      = getAllHeaders hdrs k
    ∧ getAllHeaders (success_or_recoverable_error s body (some hdrs)).headers
        "Fn-Fdk-Version" = [fdkVersionValue]
    ∧ getAllHeaders (success_or_recoverable_error s body (some hdrs)).headers
        "Fn-Fdk-Runtime" = [fdkRuntimeValue]
    ∧ getAllHeaders (success_or_recoverable_error s body (some hdrs)).headers
        "Fn-Http-Status" = [toString s] := by
  obtain ⟨gv, gr, gf⟩ := generic_response_headers (add_status_header (some hdrs) s) 200 body
  obtain ⟨_, _, gf2⟩ := generic_response_headers (add_status_header (some hdrs) s) 502 body
  exact ⟨(gf k h1 h2).trans (add_status_header_getAll_ne hdrs s k h3),
    (gf2 k h1 h2).trans (add_status_header_getAll_ne hdrs s k h3),
    gv, gr,
    (gf _ (by decide) (by decide)).trans (add_status_header_getAll (some hdrs) s)⟩

/-- Witness for header preservation: a custom header (and one colliding with
Fn-Http-Status) through the builder at status 201. -/
theorem envelope_preserves_handler_headers_witness :
    getAllHeaders (success_or_recoverable_error 201 none
        (some [("x-custom", "a"), ("fn-http-status", "7")])).headers "X-Custom"
      = getAllHeaders [("x-custom", "a"), ("fn-http-status", "7")] "X-Custom"
    ∧ getAllHeaders (unrecoverable_error 201 none
        (some [("x-custom", "a"), ("fn-http-status", "7")])).headers "X-Custom"
      = getAllHeaders [("x-custom", "a"), ("fn-http-status", "7")] "X-Custom"
    ∧ getAllHeaders (success_or_recoverable_error 201 none
        (some [("x-custom", "a"), ("fn-http-status", "7")])).headers
        "Fn-Fdk-Version" = [fdkVersionValue]
    ∧ getAllHeaders (success_or_recoverable_error 201 none
        (some [("x-custom", "a"), ("fn-http-status", "7")])).headers
        "Fn-Fdk-Runtime" = [fdkRuntimeValue]
    ∧ getAllHeaders (success_or_recoverable_error 201 none
        (some [("x-custom", "a"), ("fn-http-status", "7")])).headers
        "Fn-Http-Status" = [toString 201] :=
  envelope_preserves_handler_headers 201 none
    [("x-custom", "a"), ("fn-http-status", "7")] "X-Custom"
    (by decide) (by decide) (by decide)

/-- Counterexample to C6 as stated: the conversion from a hyper (transport
library) error produces the catch-all Other kind; the taxonomy of errors.rs
has no Server kind at all. -/
theorem hyper_error_lifts_to_other :
    function_error_from_hyper_error "boom" = FunctionError.other "hyper error: boom"
    ∧ (function_error_from_hyper_error "boom").kind = FunctionErrorKind.OtherError
    ∧ (function_error_from_hyper_error "boom").is_user_error = false := by
  decide

/-- C6 (amended): automatic lifting gives kind IO to io errors,
Initialization to environment-variable errors, Other (not Server, which
does not exist) to hyper errors, and every codec-layer failure the
Coercion kind. -/
theorem external_error_lifting :
    (∀ e : String, (function_error_from_io_error e).kind = FunctionErrorKind.IOError)
    ∧ (∀ e : String,
        (function_error_from_var_error e).kind = FunctionErrorKind.InitializationError)
    ∧ (∀ e : String,
        (function_error_from_hyper_error e).kind = FunctionErrorKind.OtherError)
    ∧ (∀ (α : Type) (dec : List Nat → Except String α) (input : List Nat) (e : String),
        dec input = Except.error e →
          try_decode_json dec input = Except.error (FunctionError.coercion e))
    ∧ (∀ (α : Type) (dec : List Nat → Except String α) (input : List Nat) (e : String),
        dec input = Except.error e →
          try_decode_yaml dec input = Except.error (FunctionError.coercion e))
    ∧ (∀ (α : Type) (dec : String → Except String α) (input : List Nat) (e : String),
        dec (latin1Decode input) = Except.error e →
          try_decode_plain dec input = Except.error (FunctionError.coercion e))
    ∧ (∀ (α : Type) (dec : String → Except String α) (input : List Nat) (e : String),
        dec (latin1Decode input) = Except.error e →
          try_decode_xml dec input = Except.error (FunctionError.coercion e))
    ∧ (∀ (α : Type) (dec : String → Except String α) (input : List Nat) (e : String),
        dec (latin1Decode input) = Except.error e →
          try_decode_urlencoded dec input = Except.error (FunctionError.coercion e))
    ∧ (∀ (α : Type) (enc : α → Except String (List Nat)) (v : α) (e : String),
        enc v = Except.error e →
          try_encode_json enc v = Except.error (FunctionError.coercion e))
    ∧ (∀ (α : Type) (enc : α → Except String (List Nat)) (v : α) (e : String),
        enc v = Except.error e →
          try_encode_yaml enc v = Except.error (FunctionError.coercion e))
    ∧ (∀ (α : Type) (enc : α → Except String String) (v : α) (e : String),
        enc v = Except.error e →
          try_encode_xml enc v = Except.error (FunctionError.coercion e))
    ∧ (∀ (α : Type) (enc : α → Except String String) (v : α) (e : String),
        enc v = Except.error e →
          try_encode_plain enc v = Except.error (FunctionError.coercion e))
    ∧ (∀ (α : Type) (enc : α → Except String String) (v : α) (e : String),
        enc v = Except.error e →
          try_encode_urlencoded enc v = Except.error (FunctionError.coercion e)) := by
  refine ⟨fun e => rfl, fun e => rfl, fun e => rfl, ?_, ?_, ?_, ?_, ?_, ?_, ?_, ?_, ?_, ?_⟩
  all_goals
    intro α f x e h
    simp [try_decode_json, try_decode_yaml, try_decode_plain, try_decode_xml,
      try_decode_urlencoded, try_encode_json, try_encode_yaml, try_encode_xml,
      try_encode_plain, try_encode_urlencoded, h]

/-- C8 (amended): `set_status_code` fails with the InvalidInput error
exactly when the status lies outside `StatusCode::from_u16`'s domain
[100, 999] (not [100, 599]); on success it records the override and leaves
every other field of the context unchanged. -/
theorem set_status_code_range (ctx : RuntimeContext) (s : Nat) (hs : s < 65536) :
    (set_status_code ctx s =
        Except.error (FunctionError.invalid_input "Invalid http code added")
      ↔ ¬(100 ≤ s ∧ s ≤ 999))
    ∧ ((100 ≤ s ∧ s ≤ 999) →
        set_status_code ctx s = Except.ok { ctx with response_status_code := some s }) := by
  by_cases h : 100 ≤ s ∧ s ≤ 999
  · constructor
    · simp [set_status_code, statusCodeFromU16, h]
    · intro _
      simp [set_status_code, statusCodeFromU16, h]
  · constructor
    · simp [set_status_code, statusCodeFromU16, h]
    · intro hc
      exact absurd hc h

/-- Witness for the `set_status_code` range law at the out-of-range status
1000 (rejected) of the u16 domain. -/
theorem set_status_code_range_witness :
    (set_status_code sampleContext 1000 =
        Except.error (FunctionError.invalid_input "Invalid http code added")
      ↔ ¬(100 ≤ 1000 ∧ 1000 ≤ 999))
    ∧ ((100 ≤ 1000 ∧ 1000 ≤ 999) →
        set_status_code sampleContext 1000 =
          Except.ok { sampleContext with response_status_code := some 1000 }) :=
  set_status_code_range sampleContext 1000 (by decide)

/-- Counterexample to C8 as stated: status 600 lies outside [100, 599] but
`set_status_code` accepts it (hyper's StatusCode admits 100..=999). -/
theorem set_status_code_accepts_600 :
    set_status_code sampleContext 600 =
      Except.ok { sampleContext with response_status_code := some 600 }
    ∧ ¬(600 ≤ 599) :=
  ⟨rfl, by decide⟩

/-- C7: the content-type defaults to JSON when the Content-Type header is
absent and when the MIME string is unknown; the accept-type consults
Fn-Http-H-Accept first (it wins when both are present), falls back to the
Accept value when Fn-Http-H-Accept is absent, and defaults to JSON when
neither is present; `from_req` resolves both through these helpers on the
original request headers. -/
theorem content_negotiation :
    resolve_content_type none = ContentType.JSON
    ∧ (∀ s : String,
        s ∉ (["application/json", "text/yaml", "application/yaml", "text/xml",
              "application/xml", "text/plain",
              "application/x-www-form-urlencoded"] : List String) →
          ContentType.from_str s = ContentType.JSON)
    ∧ (∀ (h : HeaderMap) (v : String),
        getHeader h "Fn-Http-H-Accept" = some v → get_accept_header_value h = some v)
    ∧ (∀ (h : HeaderMap) (w : String), getHeader h "Fn-Http-H-Accept" = none →
        getHeader h "Accept" = some w → get_accept_header_value h = some w)
    ∧ (∀ h : HeaderMap, getHeader h "Fn-Http-H-Accept" = none →
        getHeader h "Accept" = none →
        resolve_content_type (get_accept_header_value h) = ContentType.JSON)
    ∧ (∀ (p : String → Option String) (cfg : List (String × String))
        (req : Request) (ctx : RuntimeContext),
        from_req p cfg req = Panics.ok ctx →
          ctx.content_type = resolve_content_type (getHeader req.headers "Content-Type")
          ∧ ctx.accept_type = resolve_content_type (get_accept_header_value req.headers)) := by
  refine ⟨rfl, ?_, ?_, ?_, ?_, ?_⟩
  · intro s hs
    simp only [List.mem_cons, List.not_mem_nil, or_false, not_or] at hs
    obtain ⟨n1, n2, n3, n4, n5, n6, n7⟩ := hs
    simp [ContentType.from_str, n1, n2, n3, n4, n5, n6, n7]
  · intro h v hv
    simp [get_accept_header_value, hv]
  · intro h w h1 hw
    simp [get_accept_header_value, h1, hw]
  · intro h h1 h2
    simp [get_accept_header_value, h1, h2, resolve_content_type]
  · intro p cfg req ctx hok
    revert hok
    unfold from_req
    cases intent_of req with
    | panic m =>
      intro hok
      simp at hok
    | ok fi =>
      cases hmf : method_field (context_headers fi req) with
      | panic m =>
        intro hok
        simp [hmf] at hok
      | ok mv =>
        cases huf : uri_field p (context_headers fi req) with
        | panic m =>
          intro hok
          simp [hmf, huf] at hok
        | ok uv =>
          intro hok
          simp only [hmf, huf] at hok
          cases hok
          exact ⟨rfl, rfl⟩

/-- Classification of `uds_listener_check`: Initialization error iff
FN_LISTENER is absent or parses to a URL with wrong scheme or empty path;
panic iff it is present but unparseable; success iff it parses to a unix
URL with a non-empty path. -/
lemma uds_listener_check_spec (p : String → Option UrlT) (fl : Option String) :
    ((∃ m, uds_listener_check p fl = UdsValidation.initError m) ↔
      fl = none
      ∨ ∃ s u, fl = some s ∧ p s = some u ∧ (u.scheme ≠ "unix" ∨ u.path = ""))
    ∧ ((∃ m, uds_listener_check p fl = UdsValidation.panicked m) ↔
      ∃ s, fl = some s ∧ p s = none)
    ∧ ((∃ pa, uds_listener_check p fl = UdsValidation.ok pa) ↔
      ∃ s u, fl = some s ∧ p s = some u ∧ u.scheme = "unix" ∧ u.path ≠ "") := by
  cases fl with
  | none => simp [uds_listener_check]
  | some s =>
    cases hps : p s with
    | none => simp [uds_listener_check, hps]
    | some u =>
      by_cases h1 : u.scheme = "unix"
      · by_cases h2 : u.path = ""
        · simp [uds_listener_check, hps, h1, h2]
        · simp [uds_listener_check, hps, h1, h2]
      · simp [uds_listener_check, hps, h1]

/-- C3 (amended): listener-bootstrap environment validation fails with an
Initialization error exactly when FN_FORMAT is set to a non-empty value
other than http-stream, FN_LISTENER is absent, or FN_LISTENER parses to a
URL whose scheme is not unix or whose path is empty; when FN_LISTENER is
present but does not parse as a URL (the empty string included) the
bootstrap panics instead of returning an Initialization error; otherwise
validation succeeds with the socket path and bootstrap proceeds to bind. -/
theorem uds_bootstrap_validation (p : String → Option UrlT) (ff fl : Option String) :
    ((∃ m, uds_new_validate p ff fl = UdsValidation.initError m) ↔
      (∃ f, ff = some f ∧ f ≠ "http-stream" ∧ f ≠ "")
      ∨ ((¬∃ f, ff = some f ∧ f ≠ "http-stream" ∧ f ≠ "")
          ∧ (fl = none
             ∨ ∃ s u, fl = some s ∧ p s = some u ∧ (u.scheme ≠ "unix" ∨ u.path = ""))))
    ∧ ((∃ m, uds_new_validate p ff fl = UdsValidation.panicked m) ↔
        (¬∃ f, ff = some f ∧ f ≠ "http-stream" ∧ f ≠ "")
        ∧ ∃ s, fl = some s ∧ p s = none)
    ∧ ((∃ pa, uds_new_validate p ff fl = UdsValidation.ok pa) ↔
        (¬∃ f, ff = some f ∧ f ≠ "http-stream" ∧ f ≠ "")
        ∧ ∃ s u, fl = some s ∧ p s = some u ∧ u.scheme = "unix" ∧ u.path ≠ "") := by
  obtain ⟨l1, l2, l3⟩ := uds_listener_check_spec p fl
  cases ff with
  | none =>
    simp only [uds_new_validate]
    constructor
    · rw [l1]
      simp
    constructor
    · rw [l2]
      simp
    · rw [l3]
      simp
  | some f =>
    by_cases hf : f ≠ "http-stream" ∧ f ≠ ""
    · simp [uds_new_validate, hf]
    · simp only [uds_new_validate, if_neg hf]
      constructor
      · rw [l1]
        simp [hf]
      constructor
      · rw [l2]
        simp [hf]
      · rw [l3]
        simp [hf]

/-- Counterexample to C3 as stated: an empty FN_LISTENER does not return an
Initialization error — `Url::parse("")` fails and `UDS::new` panics. -/
theorem uds_empty_listener_panics :
    uds_new_validate urlParseModel none (some "") =
      UdsValidation.panicked "Malformed FN_LISTENER specified: " := by
  decide

/-- The request of the C4 evaluation: Fn-Intent httprequest with a
Content-Type and a platform-proxied Fn-Http-H-Accept header (names stored
lowercase, as hyper keeps them). -/
def reqHttpIntent : Request :=
  { headers := [("fn-intent", "httprequest"), ("content-type", "application/json"),
                ("fn-http-h-accept", "text/yaml")] }

/-- C4 (code bug): under Fn-Intent httprequest the context keeps only
Content-Type — the inbound Fn-Http-H-Accept header is dropped, because the
filter's `starts_with("Fn-Http-H-")` tests the mixed-case literal against
hyper's lowercase-normalized names and never matches. -/
theorem intent_filter_drops_proxied_headers :
    from_req (fun _ => none) [] reqHttpIntent = Panics.ok
      { config := [], headers := [("content-type", "application/json")],
        method := none, content_type := .JSON, accept_type := .YAML, uri := none,
        call_id := "", response_headers := [], response_status_code := none }
    ∧ getAllHeaders reqHttpIntent.headers "Fn-Http-H-Accept" = ["text/yaml"]
    ∧ strStartsWith "fn-http-h-accept" "Fn-Http-H-" = false := by
  decide

/-- A request whose Fn-Http-Method value is not a valid HTTP method name. -/
def reqInvalidMethod : Request :=
  { headers := [("fn-http-method", "NOT A METHOD")] }

/-- The same invalid Fn-Http-Method, but under Fn-Intent httprequest, where
the intent filter removes the header before it is parsed. -/
def reqFilteredInvalidMethod : Request :=
  { headers := [("fn-intent", "httprequest"), ("fn-http-method", "NOT A METHOD")] }

/-- C10 (amended): `from_req` returns normally only when the Fn-Intent
value is visible ASCII and every Fn-Http-Method / Fn-Http-Request-Url
header that survives the intent filter carries a visible-ASCII value that
parses (as a method name, resp. a URI); on a violating request it panics
instead of returning an error. -/
theorem from_req_panics_on_invalid_precondition :
    (∀ (p : String → Option String) (cfg : List (String × String))
        (req : Request) (ctx : RuntimeContext),
        from_req p cfg req = Panics.ok ctx →
          (∀ v, getHeader req.headers "Fn-Intent" = some v →
            (headerValueToStr v).isSome = true)
          ∧ (∀ v, getHeader ctx.headers "Fn-Http-Method" = some v →
              ∃ s, headerValueToStr v = some s ∧ (methodTryFrom s).isSome = true)
          ∧ (∀ v, getHeader ctx.headers "Fn-Http-Request-Url" = some v →
              ∃ s, headerValueToStr v = some s ∧ (p s).isSome = true))
    ∧ (from_req (fun _ => none) [] reqInvalidMethod).isPanic = true := by
  constructor
  · intro p cfg req ctx hok
    revert hok
    unfold from_req
    cases hi : intent_of req with
    | panic m =>
      intro hok
      simp at hok
    | ok fi =>
      cases hm : method_field (context_headers fi req) with
      | panic m =>
        intro hok
        simp [hm] at hok
      | ok mv =>
        cases hu : uri_field p (context_headers fi req) with
        | panic m =>
          intro hok
          simp [hm, hu] at hok
        | ok uv =>
          intro hok
          simp only [hm, hu] at hok
          cases hok
          refine ⟨?_, ?_, ?_⟩
          · intro v hv
            unfold intent_of at hi
            rw [hv] at hi
            cases hts : headerValueToStr v with
            | none => simp [hts] at hi
            | some s => simp [hts]
          · intro v hv
            have hv2 : getHeader (context_headers fi req) "Fn-Http-Method" = some v := hv
            unfold method_field at hm
            rw [hv2] at hm
            cases hts : headerValueToStr v with
            | none => simp [hts] at hm
            | some s =>
              cases hmt : methodTryFrom s with
              | none => simp [hts, hmt] at hm
              | some mm => exact ⟨s, rfl, by simp [hmt]⟩
          · intro v hv
            have hv2 : getHeader (context_headers fi req) "Fn-Http-Request-Url" = some v := hv
            unfold uri_field at hu
            rw [hv2] at hu
            cases hts : headerValueToStr v with
            | none => simp [hts] at hu
            | some s =>
              cases hps : p s with
              | none => simp [hts, hps] at hu
              | some uu => exact ⟨s, rfl, by simp [hps]⟩
  · decide

/-- Counterexample to C10 as stated: a request violating the claimed
precondition (its Fn-Http-Method value is not a method name) on which
`from_req` nevertheless returns normally, because the httprequest intent
filter removes the header before parsing. -/
theorem from_req_ok_despite_invalid_method :
    (from_req (fun _ => none) [] reqFilteredInvalidMethod).isOk = true
    ∧ getHeader reqFilteredInvalidMethod.headers "Fn-Http-Method" = some "NOT A METHOD"
    ∧ methodTryFrom "NOT A METHOD" = none := by
  decide

end Fdk
